import Mathlib

/-!
Verification of the ai-service agent orchestration core.

This file gives a shallow embedding, in Lean 4, of the Python modules
`src/core/agent.py`, `src/core/llm.py`, `src/core/embeddings.py`,
`src/models/skills.py` and `src/services/pinecone.py`, and proves or refutes
the behavioural claims about them.  Python exceptions are modelled by an
explicit error type, `async` methods by pure functions over explicit state,
external service calls by outcome oracles passed as arguments, and the two
non-terminating loops in the source (the background `_cleanup_state` task and
`tenacity.retry` without a stop condition) by fuel-indexed interpreters that
return `none` while the loop is still running.
-/

/-- Python exception values as observed by the callers in this code base.
`valueError` and `runtimeError` carry the message built at the raise site;
`keyError` carries the missing dictionary key; `attributeError` carries the
name of the missing attribute (CPython's message additionally quotes the
object type and the name); `retryError` is tenacity's `RetryError`,
wrapping the final attempt's exception (tenacity's default
`reraise=False`). -/
inductive PyErr where
  | valueError (msg : String)
  | runtimeError (msg : String)
  | keyError (key : String)
  | attributeError (attr : String)
  | retryError (last : PyErr)
deriving Repr, DecidableEq

/-- Message rendering of an exception, as Python `str(e)` is used when the
agent interpolates a caught exception into a wrapping message. -/
def PyErr.str : PyErr → String
  | .valueError m => m
  | .runtimeError m => m
  | .keyError k => k
  | .attributeError a => "SkillRegistry object has no attribute " ++ a
  | .retryError e => e.str

/-- True exactly for `ValueError`, the exception class the spec's
`InvalidArgument` taxonomy entry corresponds to in this code base. -/
def PyErr.isValueError : PyErr → Bool
  | .valueError _ => true
  | _ => false

/-- One conversation turn as appended by `Agent._update_conversation_history`:
a dict with keys `role`, `content`, `timestamp`, `context`. -/
structure ConversationTurn where
  role : String
  content : String
  timestamp : String
  context : List (String × String)
deriving Repr, DecidableEq

/-- `CONVERSATION_HISTORY_LIMIT` from `agent.py`. -/
def CONVERSATION_HISTORY_LIMIT : Nat := 100

/-- `Agent._update_conversation_history`: append the new turn, then
`pop(0)` (drop the oldest entry) when the length exceeds the limit. -/
def update_conversation_history (hist : List ConversationTurn)
    (turn : ConversationTurn) : List ConversationTurn :=
  let h := hist ++ [turn]
  if CONVERSATION_HISTORY_LIMIT < h.length then h.tail else h

/-- The suffix of the most recent `n` elements of a list. -/
def takeLast (n : Nat) (l : List α) : List α :=
  l.drop (l.length - n)

theorem takeLast_of_length_le {l : List α} {n : Nat} (h : l.length ≤ n) :
    takeLast n l = l := by
  unfold takeLast
  have : l.length - n = 0 := by omega
  simp [this]

theorem length_takeLast (n : Nat) (l : List α) :
    (takeLast n l).length = min n l.length := by
  unfold takeLast
  simp [List.length_drop]
  omega

theorem update_history_takeLast (l : List ConversationTurn)
    (t : ConversationTurn) :
    update_conversation_history (takeLast CONVERSATION_HISTORY_LIMIT l) t
      = takeLast CONVERSATION_HISTORY_LIMIT (l ++ [t]) := by
  unfold update_conversation_history takeLast CONVERSATION_HISTORY_LIMIT
  by_cases h : l.length < 100
  · have h0 : l.length - 100 = 0 := by omega
    have h1 : (l ++ [t]).length - 100 = 0 := by
      simp [List.length_append]; omega
    simp only [h0, h1, List.drop_zero]
    rw [if_neg]
    simp [List.length_append]
    omega
  · push_neg at h
    have hlen : (l.drop (l.length - 100)).length = 100 := by
      simp [List.length_drop]; omega
    rw [if_pos]
    · have hd1 : (l.drop (l.length - 100) ++ [t]).tail
          = (l.drop (l.length - 100) ++ [t]).drop 1 := by
        simp [List.drop_one]
      rw [hd1, List.drop_append_of_le_length (by omega), List.drop_drop]
      have h2 : (l ++ [t]).length - 100 = l.length + 1 - 100 := by
        simp [List.length_append]
      rw [h2, List.drop_append_of_le_length (by omega)]
      congr 2
      omega
    · simp [List.length_append, hlen]

theorem foldl_update_history (ts : List ConversationTurn) :
    ∀ l : List ConversationTurn,
      ts.foldl update_conversation_history (takeLast CONVERSATION_HISTORY_LIMIT l)
        = takeLast CONVERSATION_HISTORY_LIMIT (l ++ ts) := by
  induction ts with
  | nil => intro l; simp
  | cons t ts ih =>
      intro l
      simp only [List.foldl_cons]
      rw [update_history_takeLast, ih (l ++ [t])]
      simp

/-- C3: starting from any history that is within the limit (in particular the
empty history the agent is constructed with), after any sequence of appended
turns the stored history is exactly the most recent 100 entries of the
initial entries followed by the appended turns, in insertion order, and its
length never exceeds the limit; this holds after each append since the
statement quantifies over every prefix of the appended sequence. -/
theorem c3_conversation_history_bounded
    (init ts : List ConversationTurn)
    (h : init.length ≤ CONVERSATION_HISTORY_LIMIT) :
    ts.foldl update_conversation_history init
        = takeLast CONVERSATION_HISTORY_LIMIT (init ++ ts)
      ∧ (ts.foldl update_conversation_history init).length
          ≤ CONVERSATION_HISTORY_LIMIT := by
  have e : takeLast CONVERSATION_HISTORY_LIMIT init = init :=
    takeLast_of_length_le h
  have main := foldl_update_history ts init
  rw [e] at main
  refine ⟨main, ?_⟩
  rw [main, length_takeLast]
  omega

set_option maxRecDepth 8192

/-- Witness for C3 at a concrete input: the empty initial history and two
concrete appended turns. -/
theorem c3_conversation_history_bounded_witness :
    ([] : List ConversationTurn).length ≤ CONVERSATION_HISTORY_LIMIT
      ∧ ([⟨"user", "hello", "t0", []⟩,
          ⟨"user", "again", "t1", []⟩] : List ConversationTurn).foldl
            update_conversation_history []
          = takeLast CONVERSATION_HISTORY_LIMIT
              ([] ++ [⟨"user", "hello", "t0", []⟩, ⟨"user", "again", "t1", []⟩])
      ∧ (([⟨"user", "hello", "t0", []⟩,
           ⟨"user", "again", "t1", []⟩] : List ConversationTurn).foldl
            update_conversation_history []).length
          ≤ CONVERSATION_HISTORY_LIMIT :=
  ⟨by decide,
   c3_conversation_history_bounded []
     [⟨"user", "hello", "t0", []⟩, ⟨"user", "again", "t1", []⟩] (by decide)⟩

/-- `SkillCategory` from `skills.py`. -/
inductive SkillCategory where
  | TEXT_PROCESSING
  | DECISION_MAKING
  | DATA_ANALYSIS
  | KNOWLEDGE_BASE
deriving Repr, DecidableEq

/-- Name of a category, as `SkillCategory.__members__` keys. -/
def SkillCategory.memberName : SkillCategory → String
  | .TEXT_PROCESSING => "TEXT_PROCESSING"
  | .DECISION_MAKING => "DECISION_MAKING"
  | .DATA_ANALYSIS => "DATA_ANALYSIS"
  | .KNOWLEDGE_BASE => "KNOWLEDGE_BASE"

/-- The member names of `SkillCategory`. -/
def skillCategoryMembers : List String :=
  ["TEXT_PROCESSING", "DECISION_MAKING", "DATA_ANALYSIS", "KNOWLEDGE_BASE"]

/-- The `Skill` pydantic model from `skills.py`: the declared (required or
defaulted) fields.  Dictionary-valued fields are modelled as association
lists with string values; the runtime-only bookkeeping fields
(`performance_metrics`, `error_counts`) are set by `__init__` to fixed
initial dictionaries and are not read by the registry operations, and the
fixed `security_config` values appear as the constants used by
`validate_inputs`. -/
structure Skill where
  name : String
  description : String
  category : SkillCategory
  prompt_template : List (String × String)
  input_schema : List (String × String) := []
  output_schema : List (String × String) := []
  metadata : List (String × String) := []
deriving Repr, DecidableEq

/-- The dictionary view `skill.dict()` that `validate_skill_config` receives:
which keys are present, the category as a string, and whether each
dictionary-typed field holds a dictionary.  For a well-typed `Skill` every
required key is present and every mapping field is a dictionary. -/
structure SkillDict where
  hasName : Bool
  hasDescription : Bool
  hasCategory : Bool
  hasPromptTemplate : Bool
  categoryName : String
  promptTemplateIsDict : Bool
  hasInputSchema : Bool
  inputSchemaIsDict : Bool
  hasOutputSchema : Bool
  outputSchemaIsDict : Bool
deriving Repr, DecidableEq

/-- `skill.dict()`: a constructed pydantic `Skill` always carries all declared
fields, its `category` is a `SkillCategory` member, and its template and
schema fields are dictionaries. -/
def Skill.dict (s : Skill) : SkillDict :=
  { hasName := true
    hasDescription := true
    hasCategory := true
    hasPromptTemplate := true
    categoryName := s.category.memberName
    promptTemplateIsDict := true
    hasInputSchema := true
    inputSchemaIsDict := true
    hasOutputSchema := true
    outputSchemaIsDict := true }

/-- `validate_skill_config` from `skills.py`: required-field presence,
category membership, and dictionary-shape checks, in source order. -/
def validate_skill_config (d : SkillDict) : Bool × Option String :=
  if !d.hasName then (false, some "Missing required field: name")
  else if !d.hasDescription then (false, some "Missing required field: description")
  else if !d.hasCategory then (false, some "Missing required field: category")
  else if !d.hasPromptTemplate then (false, some "Missing required field: prompt_template")
  else if !(skillCategoryMembers.contains d.categoryName) then
    (false, some ("Invalid category: " ++ d.categoryName))
  else if !d.promptTemplateIsDict then
    (false, some "Prompt template must be a dictionary")
  else if d.hasInputSchema && !d.inputSchemaIsDict then
    (false, some "Input schema must be a dictionary")
  else if d.hasOutputSchema && !d.outputSchemaIsDict then
    (false, some "Output schema must be a dictionary")
  else (true, none)

/-- Per-skill registry metrics dictionary created at registration. -/
structure RegMetrics where
  registered_at : String
  execution_count : Nat
  error_rate : Rat
deriving Repr, DecidableEq

/-- `SkillRegistry` state: the `_skills` and `_metrics` insertion-ordered
dictionaries (the `threading.Lock` is represented explicitly at the call
sites that acquire it). -/
structure SkillRegistry where
  skills : List (String × Skill)
  metrics : List (String × RegMetrics)
deriving Repr, DecidableEq

/-- The body of `SkillRegistry.register_skill` that runs inside
`with self._registry_lock`: validate the configuration, reject a duplicate
name, otherwise insert the skill and its metrics entry.  `now` is the
`datetime.now().isoformat()` timestamp. -/
def register_skill_body (reg : SkillRegistry) (s : Skill) (now : String) :
    (Bool × Option String) × SkillRegistry :=
  match validate_skill_config s.dict with
  | (false, errMsg) => ((false, errMsg), reg)
  | (true, _) =>
    if (reg.skills.lookup s.name).isSome then
      ((false, some ("Skill already exists: " ++ s.name)), reg)
    else
      ((true, none),
       { skills := reg.skills ++ [(s.name, s)]
         metrics := reg.metrics ++ [(s.name, ⟨now, 0, 0⟩)] })

/-- Result of running a piece of code that may block forever on a
non-reentrant lock: either it finishes with a value and the registry it
leaves behind, or it is deadlocked with the registry as it was when it
blocked. -/
inductive RunResult (α : Type) where
  | done (a : α) (reg : SkillRegistry)
  | deadlock (reg : SkillRegistry)
deriving Repr, DecidableEq

/-- `SkillRegistry.register_skill`, entered with the registry lock in the
state `lockHeld`.  `threading.Lock` is not reentrant, so when the calling
task already holds the lock the `with self._registry_lock` statement blocks
forever before the body runs. -/
def register_skill_from (lockHeld : Bool) (reg : SkillRegistry) (s : Skill)
    (now : String) : RunResult (Bool × Option String) :=
  if lockHeld then .deadlock reg
  else
    let (r, reg') := register_skill_body reg s now
    .done r reg'

/-- `SkillRegistry.register_skill` called from outside any critical section:
the lock is free, is acquired, and is released when the call returns. -/
def register_skill (reg : SkillRegistry) (s : Skill) (now : String) :
    (Bool × Option String) × SkillRegistry :=
  register_skill_body reg s now

/-- The registration loop of `bulk_register` (its second `for`), which calls
`self.register_skill` for each skill while the caller still holds the
registry lock, accumulating per-skill results. -/
def bulk_register_loop (now : String) :
    SkillRegistry → List Skill → List (String × (Bool × Option String)) →
      RunResult (List (String × (Bool × Option String)))
  | reg, [], acc => .done acc reg
  | reg, s :: rest, acc =>
    match register_skill_from true reg s now with
    | .deadlock r => .deadlock r
    | .done res r' => bulk_register_loop now r' rest (acc ++ [(s.name, res)])

/-- `SkillRegistry.bulk_register`: acquire the registry lock, validate every
skill first (returning, on the first invalid skill, a result map holding
only that skill's failure), then register each skill via `register_skill` —
which re-acquires the already-held non-reentrant lock. -/
def bulk_register (reg : SkillRegistry) (skills : List Skill) (now : String) :
    RunResult (List (String × (Bool × Option String))) :=
  match skills.find? (fun s => !(validate_skill_config s.dict).1) with
  | some s => .done [(s.name, (false, (validate_skill_config s.dict).2))] reg
  | none => bulk_register_loop now reg skills []

/-- C7: registering a name that is already present in the registry fails and
leaves both the skill map and the metrics map untouched. -/
theorem c7_duplicate_registration_rejected
    (reg : SkillRegistry) (s : Skill) (now : String)
    (h : (reg.skills.lookup s.name).isSome = true) :
    (register_skill reg s now).1.1 = false
      ∧ (register_skill reg s now).2 = reg := by
  unfold register_skill register_skill_body
  rcases hv : validate_skill_config s.dict with ⟨b, msg⟩
  cases b
  · exact ⟨rfl, rfl⟩
  · simp [h]

/-- Witness for C7 at a concrete input: a registry already holding the skill
name being registered again. -/
theorem c7_duplicate_registration_rejected_witness :
    (((⟨[("summarize", ⟨"summarize", "d", .TEXT_PROCESSING, [("base", "p")], [], [], []⟩)],
        []⟩ : SkillRegistry)).skills.lookup "summarize").isSome = true
      ∧ (register_skill
           ⟨[("summarize", ⟨"summarize", "d", .TEXT_PROCESSING, [("base", "p")], [], [], []⟩)], []⟩
           ⟨"summarize", "other", .DATA_ANALYSIS, [("base", "q")], [], [], []⟩ "t0").1.1 = false
      ∧ (register_skill
           ⟨[("summarize", ⟨"summarize", "d", .TEXT_PROCESSING, [("base", "p")], [], [], []⟩)], []⟩
           ⟨"summarize", "other", .DATA_ANALYSIS, [("base", "q")], [], [], []⟩ "t0").2
          = ⟨[("summarize", ⟨"summarize", "d", .TEXT_PROCESSING, [("base", "p")], [], [], []⟩)], []⟩ := by
  refine ⟨by decide, ?_⟩
  exact c7_duplicate_registration_rejected
    ⟨[("summarize", ⟨"summarize", "d", .TEXT_PROCESSING, [("base", "p")], [], [], []⟩)], []⟩
    ⟨"summarize", "other", .DATA_ANALYSIS, [("base", "q")], [], [], []⟩ "t0" (by decide)

/-- C10: for a non-empty batch of skills that all pass configuration
validation, `bulk_register` acquires the non-reentrant registry lock, the
validation loop finds nothing invalid, and the first `register_skill` call
blocks forever re-acquiring the held lock: the call never returns a result
map and no skill is registered (the registry at the deadlock is unchanged). -/
theorem c10_bulk_register_deadlock
    (reg : SkillRegistry) (skills : List Skill) (now : String)
    (hne : skills ≠ [])
    (hval : ∀ s ∈ skills, (validate_skill_config s.dict).1 = true) :
    bulk_register reg skills now = .deadlock reg := by
  unfold bulk_register
  have hfind : skills.find? (fun s => !(validate_skill_config s.dict).1) = none := by
    rw [List.find?_eq_none]
    intro s hs
    simp [hval s hs]
  rw [hfind]
  cases skills with
  | nil => exact absurd rfl hne
  | cons s rest =>
      simp [bulk_register_loop, register_skill_from]

/-- Witness for C10 at a concrete input: the empty registry and a batch of
one valid skill. -/
theorem c10_bulk_register_deadlock_witness :
    (([(⟨"summarize", "d", .TEXT_PROCESSING, [("base", "p")], [], [], []⟩ : Skill)] : List Skill) ≠ [])
      ∧ (∀ s ∈ ([⟨"summarize", "d", .TEXT_PROCESSING, [("base", "p")], [], [], []⟩] : List Skill),
           (validate_skill_config s.dict).1 = true)
      ∧ bulk_register ⟨[], []⟩
          [⟨"summarize", "d", .TEXT_PROCESSING, [("base", "p")], [], [], []⟩] "t0"
          = .deadlock ⟨[], []⟩ := by
  refine ⟨by decide, by decide, ?_⟩
  exact c10_bulk_register_deadlock ⟨[], []⟩
    [⟨"summarize", "d", .TEXT_PROCESSING, [("base", "p")], [], [], []⟩] "t0"
    (by decide) (by decide)

/-- The security context dictionary supplied with a request; a key that is
absent from the dictionary is `none`.  The issued-at timestamp is in seconds,
as compared by `total_seconds()`. -/
structure SecurityContext where
  user_id : Option String
  access_level : Option String
  timestamp : Option Int
deriving Repr, DecidableEq

/-- `Agent._validate_security_context`: check the required fields
`user_id`, `access_level`, `timestamp` in order, then reject a context whose
timestamp is more than 300 seconds before `now`. -/
def validate_security_context (ctx : SecurityContext) (now : Int) :
    Except PyErr Unit :=
  if ctx.user_id.isNone then
    .error (.valueError "Missing required security field: user_id")
  else if ctx.access_level.isNone then
    .error (.valueError "Missing required security field: access_level")
  else
    match ctx.timestamp with
    | none => .error (.valueError "Missing required security field: timestamp")
    | some t =>
      if 300 < now - t then .error (.valueError "Security context has expired")
      else .ok ()

/-- C8: a security context missing any required field is rejected with a
missing-field error, and a complete context issued more than 300 seconds
before processing (for example 301 seconds) is rejected as expired. -/
theorem c8_security_context_validation (ctx : SecurityContext) (now : Int) :
    ((ctx.user_id.isNone = true ∨ ctx.access_level.isNone = true
        ∨ ctx.timestamp.isNone = true)
      → ∃ f, validate_security_context ctx now
          = .error (.valueError ("Missing required security field: " ++ f)))
    ∧ (∀ t : Int, ctx.user_id.isSome = true → ctx.access_level.isSome = true
        → ctx.timestamp = some t → 300 < now - t
        → validate_security_context ctx now
            = .error (.valueError "Security context has expired")) := by
  constructor
  · intro hmiss
    cases hu : ctx.user_id with
    | none => exact ⟨"user_id", by simp [validate_security_context, hu]⟩
    | some u =>
      cases ha : ctx.access_level with
      | none => exact ⟨"access_level", by simp [validate_security_context, hu, ha]⟩
      | some a =>
        cases ht : ctx.timestamp with
        | none => exact ⟨"timestamp", by simp [validate_security_context, hu, ha, ht]⟩
        | some t =>
          rcases hmiss with h | h | h <;> simp [hu, ha, ht] at h
  · intro t hu ha ht hexp
    obtain ⟨u, hu'⟩ := Option.isSome_iff_exists.mp hu
    obtain ⟨a, ha'⟩ := Option.isSome_iff_exists.mp ha
    simp [validate_security_context, hu', ha', ht, hexp]

/-- Witness for C8 at concrete inputs: a context missing its identity field,
and a complete context issued 301 seconds before processing. -/
theorem c8_security_context_validation_witness :
    (∃ f, validate_security_context ⟨none, some "admin", some 0⟩ 0
        = .error (.valueError ("Missing required security field: " ++ f)))
    ∧ validate_security_context ⟨some "alice", some "admin", some 0⟩ 301
        = .error (.valueError "Security context has expired") := by
  constructor
  · exact (c8_security_context_validation ⟨none, some "admin", some 0⟩ 0).1
      (Or.inl rfl)
  · exact (c8_security_context_validation ⟨some "alice", some "admin", some 0⟩ 301).2
      0 rfl rfl rfl (by decide)

/-- One similarity-search result as returned by `PineconeService.query` and
consumed by `Agent.get_conversation_context`: a dictionary with `id`,
`score` and `metadata` keys, the metadata itself a string dictionary. -/
structure RetrievalMatch where
  id : String
  score : Rat
  metadata : List (String × String)
deriving Repr, DecidableEq

/-- The projection comprehension in `Agent.get_conversation_context`: for
each result, read `metadata` key `role` then key `content`; a missing key
raises `KeyError` at the first offending result. -/
def project_matches : List RetrievalMatch → Except PyErr (List (String × String))
  | [] => .ok []
  | c :: rest =>
    match c.metadata.lookup "role" with
    | none => .error (.keyError "role")
    | some r =>
      match c.metadata.lookup "content" with
      | none => .error (.keyError "content")
      | some ct =>
        match project_matches rest with
        | .error e => .error e
        | .ok l => .ok ((r, ct) :: l)

/-- Whether validating the supplied security context raised (the context
argument is `none` when no security context was supplied). -/
def security_failed : Option (Except PyErr Unit) → Bool
  | some (.error _) => true
  | _ => false

/-- `Agent.get_conversation_context`: validate the security context when one
is supplied, generate the query embedding, run the similarity search, and
project each result's metadata to a role/content pair; the surrounding
`try`/`except` turns any raised exception into the empty context list.
The embedding and search outcomes are the observed results of the two
`EmbeddingService` calls. -/
def get_conversation_context
    (securityCheck : Option (Except PyErr Unit))
    (embedResult : Except PyErr (List Rat))
    (searchResult : Except PyErr (List RetrievalMatch)) :
    List (String × String) :=
  if security_failed securityCheck then []
  else
    match embedResult with
    | .error _ => []
    | .ok _ =>
      match searchResult with
      | .error _ => []
      | .ok convs =>
        match project_matches convs with
        | .error _ => []
        | .ok ctx => ctx

theorem project_matches_ok (ms : List RetrievalMatch)
    (h : ∀ c ∈ ms, (c.metadata.lookup "role").isSome = true
        ∧ (c.metadata.lookup "content").isSome = true) :
    project_matches ms
      = .ok (ms.map (fun c => ((c.metadata.lookup "role").getD "",
          (c.metadata.lookup "content").getD ""))) := by
  induction ms with
  | nil => rfl
  | cons c rest ih =>
    obtain ⟨hr, hc⟩ := h c (List.mem_cons_self c rest)
    obtain ⟨r, hr'⟩ := Option.isSome_iff_exists.mp hr
    obtain ⟨ct, hc'⟩ := Option.isSome_iff_exists.mp hc
    have ih' := ih (fun x hx => h x (List.mem_cons_of_mem c hx))
    simp [project_matches, hr', hc', ih']

theorem project_matches_err (ms : List RetrievalMatch)
    (h : ∃ c ∈ ms, (c.metadata.lookup "role").isNone = true
        ∨ (c.metadata.lookup "content").isNone = true) :
    ∃ e, project_matches ms = .error e := by
  induction ms with
  | nil => simp at h
  | cons c rest ih =>
    rcases h with ⟨x, hx, hfail⟩
    rcases List.mem_cons.mp hx with hhead | htail
    · subst hhead
      rcases hfail with hr | hc
      · rw [Option.isNone_iff_eq_none] at hr
        exact ⟨.keyError "role", by simp [project_matches, hr]⟩
      · rw [Option.isNone_iff_eq_none] at hc
        cases hrole : x.metadata.lookup "role" with
        | none => exact ⟨.keyError "role", by simp [project_matches, hrole]⟩
        | some r => exact ⟨.keyError "content", by simp [project_matches, hrole, hc]⟩
    · obtain ⟨e, he⟩ := ih ⟨x, htail, hfail⟩
      cases hrole : c.metadata.lookup "role" with
      | none => exact ⟨.keyError "role", by simp [project_matches, hrole]⟩
      | some r =>
        cases hct : c.metadata.lookup "content" with
        | none => exact ⟨.keyError "content", by simp [project_matches, hrole, hct]⟩
        | some ct => exact ⟨e, by simp [project_matches, hrole, hct, he]⟩

/-- C9: if any step fails — the security check, the embedding call, the
similarity search, or the metadata projection — the built context is the
empty list rather than an error; when every step succeeds it is exactly the
role/content projection of the returned results, in order. -/
theorem c9_context_best_effort
    (securityCheck : Option (Except PyErr Unit))
    (embedResult : Except PyErr (List Rat))
    (searchResult : Except PyErr (List RetrievalMatch)) :
    (((∃ e, securityCheck = some (.error e))
        ∨ (∃ e, embedResult = .error e)
        ∨ (∃ e, searchResult = .error e)
        ∨ (∃ ms, searchResult = .ok ms ∧ ∃ c ∈ ms,
            (c.metadata.lookup "role").isNone = true
              ∨ (c.metadata.lookup "content").isNone = true))
      → get_conversation_context securityCheck embedResult searchResult = [])
    ∧ (∀ ms : List RetrievalMatch,
        (∀ e, securityCheck ≠ some (.error e))
        → (∀ e, embedResult ≠ .error e)
        → searchResult = .ok ms
        → (∀ c ∈ ms, (c.metadata.lookup "role").isSome = true
            ∧ (c.metadata.lookup "content").isSome = true)
        → get_conversation_context securityCheck embedResult searchResult
            = ms.map (fun c => ((c.metadata.lookup "role").getD "",
                (c.metadata.lookup "content").getD ""))) := by
  constructor
  · intro hfail
    rcases hfail with ⟨e, he⟩ | ⟨e, he⟩ | ⟨e, he⟩ | ⟨ms, hsr, hex⟩
    · simp [get_conversation_context, security_failed, he]
    · cases searchResult <;> simp [get_conversation_context, he]
    · cases embedResult <;> simp [get_conversation_context, he]
    · obtain ⟨e, hpe⟩ := project_matches_err ms hex
      cases embedResult <;> simp [get_conversation_context, hsr, hpe]
  · intro ms hsec hemb hsr hall
    have hsf : security_failed securityCheck = false := by
      cases securityCheck with
      | none => rfl
      | some r =>
        cases r with
        | ok u => rfl
        | error e => exact absurd rfl (hsec e)
    cases embedResult with
    | error e => exact absurd rfl (hemb e)
    | ok v =>
      simp [get_conversation_context, hsf, hsr, project_matches_ok ms hall]

/-- Witness for C9 at concrete inputs: a failing embedding call yields the
empty context, and a successful run over one search result yields its
role/content projection. -/
theorem c9_context_best_effort_witness :
    get_conversation_context none
        (.error (.runtimeError "Failed to generate embedding: boom")) (.ok []) = []
    ∧ get_conversation_context none (.ok [1])
        (.ok [⟨"m1", 1, [("role", "assistant"), ("content", "hi")]⟩])
        = [("assistant", "hi")] := by
  constructor
  · exact (c9_context_best_effort none
      (.error (.runtimeError "Failed to generate embedding: boom")) (.ok [])).1
      (Or.inr (Or.inl ⟨.runtimeError "Failed to generate embedding: boom", rfl⟩))
  · have h2 := (c9_context_best_effort none (.ok [1])
      (.ok [⟨"m1", 1, [("role", "assistant"), ("content", "hi")]⟩])).2
      [⟨"m1", 1, [("role", "assistant"), ("content", "hi")]⟩]
      (fun e h => Option.noConfusion h)
      (fun e h => Except.noConfusion h)
      rfl (by decide)
    rw [h2]
    rfl

/-- Breaker states of the `circuitbreaker` library: `HALF_OPEN` is computed
from `OPEN` once the recovery timeout has elapsed, not stored. -/
inductive CBState where
  | closed
  | opened
  | halfOpen
deriving Repr, DecidableEq

/-- A `circuitbreaker.CircuitBreaker` instance: the configured thresholds,
the stored state, the consecutive-failure count, and the time at which the
breaker last opened.  Time is in seconds. -/
structure CircuitBreaker where
  failure_threshold : Nat
  recovery_timeout : Nat
  st : CBState
  failure_count : Nat
  openedAt : Nat
deriving Repr, DecidableEq

/-- The library's `state` property: a stored `OPEN` state reads as
`HALF_OPEN` once `recovery_timeout` seconds have passed since opening. -/
def CircuitBreaker.state (b : CircuitBreaker) (now : Nat) : CBState :=
  match b.st with
  | .opened => if b.recovery_timeout ≤ now - b.openedAt then .halfOpen else .opened
  | s => s

/-- The library's `opened` property, the only breaker member `agent.py`
reads: whether the computed state is `OPEN`. -/
def CircuitBreaker.opened (b : CircuitBreaker) (now : Nat) : Bool :=
  match b.state now with
  | .opened => true
  | _ => false

/-- The breaker built in `Agent.__init__`:
`circuit(failure_threshold=3, recovery_timeout=60, name=...)`, initially
closed with no recorded failures. -/
def agent_circuit_breaker : CircuitBreaker :=
  ⟨3, 60, .closed, 0, 0⟩

/-- Length of the Python `str()` rendering of a dictionary mapping strings
to strings: two braces, per entry the quoted key, the separating colon and
space, and the quoted value (six punctuation characters per entry), and a
two-character separator between consecutive entries. -/
def pyStrLenDict (d : List (String × String)) : Nat :=
  match d with
  | [] => 2
  | _ => 2 + (d.map (fun p => p.1.length + p.2.length + 6)).sum + 2 * (d.length - 1)

/-- `Skill.validate_inputs`: reject inputs whose serialized size exceeds the
`security_config` limit of 10000, then require every `input_schema` key to
be present.  In this embedding every schema and input value is a string, so
the source's `isinstance` type comparison always succeeds. -/
def Skill.validate_inputs (s : Skill) (inputs : List (String × String)) :
    Bool × Option String :=
  if 10000 < pyStrLenDict inputs then
    (false, some ("Input size exceeds limit: "
      ++ toString (pyStrLenDict inputs) ++ " > 10000"))
  else
    match s.input_schema.find? (fun p => (inputs.lookup p.1).isNone) with
    | some p => (false, some ("Missing required input: " ++ p.1))
    | none => (true, none)

set_option linter.unusedVariables false in
/-- `Agent.execute_skill`: its first statement,
`skill = await self._skill_registry.get_skill(skill_name)`, accesses a
method `SkillRegistry` does not define (skills.py has only `__init__`,
`register_skill` and `bulk_register`), so every call raises
`AttributeError` there — before the breaker check, the input validation
(`Skill.validate_inputs`, modelled above) and the skill invocation, which
are all unreachable — and the catch-all `except` logs and re-raises it
unchanged.  `skillOutcome` is the result `skill.execute(inputs)` would
have; the returned triple is the call's result, the breaker afterwards
(never mutated: no code path records an outcome into it), and whether the
underlying skill was invoked. -/
def execute_skill (reg : SkillRegistry) (breaker : CircuitBreaker) (now : Nat)
    (skill_name : String) (inputs : List (String × String))
    (skillOutcome : Except PyErr String) :
    Except PyErr String × CircuitBreaker × Bool :=
  (.error (.attributeError "get_skill"), breaker, false)

/-- A sequence of `execute_skill` calls against one agent, one second apart,
with the given per-call skill outcomes; returns each call's result paired
with whether the skill was invoked, and the final breaker. -/
def run_execute_skill_calls (reg : SkillRegistry) (skill_name : String)
    (inputs : List (String × String)) :
    CircuitBreaker → Nat → List (Except PyErr String) →
      List (Except PyErr String × Bool) × CircuitBreaker
  | breaker, _, [] => ([], breaker)
  | breaker, now, o :: os =>
    let r := execute_skill reg breaker now skill_name inputs o
    let rest := run_execute_skill_calls reg skill_name inputs r.2.1 (now + 1) os
    ((r.1, r.2.2) :: rest.1, rest.2)

theorem execute_skill_preserves_breaker (reg : SkillRegistry)
    (breaker : CircuitBreaker) (now : Nat) (skill_name : String)
    (inputs : List (String × String)) (o : Except PyErr String) :
    (execute_skill reg breaker now skill_name inputs o).2.1 = breaker := rfl

/-- The registry used in the concrete C1 run: one registered skill with no
input schema. -/
def c1_registry : SkillRegistry :=
  ⟨[("summarize", ⟨"summarize", "d", .TEXT_PROCESSING, [("base", "p")], [], [], []⟩)],
   [("summarize", ⟨"t0", 0, 0⟩)]⟩

/-- C1 (code behaviour at the claim's scenario): every `execute_skill` call
fails with the `AttributeError` raised at the `get_skill` access, before the
breaker is even consulted and without invoking the underlying skill; in
particular no call ever fails with the circuit-open error, no failure is
ever recorded into the breaker (it is passed through unchanged by every call
sequence), and the agent's breaker reads as closed at every time — so the
claimed closed/open/half-open/closed cycle never happens.  The concrete run
replays the claim's scenario: three would-be skill failures followed by a
would-be success all surface the same `AttributeError`, with the skill never
invoked and the breaker unchanged. -/
theorem c1_circuit_breaker_never_trips :
    (∀ (reg : SkillRegistry) (breaker : CircuitBreaker) (now : Nat)
       (name : String) (inputs : List (String × String)) (o : Except PyErr String),
        execute_skill reg breaker now name inputs o
          = (.error (.attributeError "get_skill"), breaker, false))
    ∧ (∀ (reg : SkillRegistry) (breaker : CircuitBreaker) (now : Nat)
       (name : String) (inputs : List (String × String)) (o : Except PyErr String),
        (execute_skill reg breaker now name inputs o).1
          ≠ .error (.runtimeError "Circuit breaker is open"))
    ∧ (∀ (reg : SkillRegistry) (name : String) (inputs : List (String × String))
       (breaker : CircuitBreaker) (now : Nat) (os : List (Except PyErr String)),
        (run_execute_skill_calls reg name inputs breaker now os).2 = breaker)
    ∧ (∀ now : Nat, agent_circuit_breaker.opened now = false)
    ∧ run_execute_skill_calls c1_registry "summarize" [("request", "r")]
        agent_circuit_breaker 0
        [.error (.runtimeError "boom"), .error (.runtimeError "boom"),
         .error (.runtimeError "boom"), .ok "done"]
        = ([(.error (.attributeError "get_skill"), false),
            (.error (.attributeError "get_skill"), false),
            (.error (.attributeError "get_skill"), false),
            (.error (.attributeError "get_skill"), false)],
           agent_circuit_breaker) := by
  refine ⟨fun _ _ _ _ _ _ => rfl,
    fun _ _ _ _ _ _ h => PyErr.noConfusion (Except.error.inj h),
    ?_, fun _ => rfl, by rfl⟩
  intro reg name inputs breaker now os
  induction os generalizing breaker now with
  | nil => rfl
  | cons o os ih =>
    simp only [run_execute_skill_calls]
    rw [execute_skill_preserves_breaker]
    exact ih breaker (now + 1)

/-- `MAX_CONTEXT_LENGTH` from `agent.py`, used by `update_state` as the
serialized-size threshold. -/
def MAX_CONTEXT_LENGTH : Nat := 4096

/-- The background task `Agent._cleanup_state`: an unconditional
`while True` loop that sleeps an hour and then trims the conversation
history (not the agent state) to the history limit.  The fuel argument is
how many loop iterations the interpreter runs; the loop never exits, so no
amount of fuel produces a result. -/
def cleanup_state_loop : Nat → List ConversationTurn → Option (List ConversationTurn)
  | 0, _ => none
  | fuel + 1, hist =>
    cleanup_state_loop fuel
      (if CONVERSATION_HISTORY_LIMIT < hist.length
       then takeLast CONVERSATION_HISTORY_LIMIT hist else hist)

theorem cleanup_state_loop_none :
    ∀ (fuel : Nat) (hist : List ConversationTurn),
      cleanup_state_loop fuel hist = none := by
  intro fuel
  induction fuel with
  | zero => intro hist; rfl
  | succ n ih => intro hist; exact ih _

/-- Python `dict.update`: each new entry overwrites the value of an existing
key in place or is appended at the end. -/
def dict_update (d newEntries : List (String × String)) : List (String × String) :=
  newEntries.foldl
    (fun acc p =>
      if (acc.lookup p.1).isSome then acc.map (fun q => if q.1 = p.1 then p else q)
      else acc ++ [p]) d

/-- `Agent.update_state`: when the serialized size of the incoming update
exceeds `MAX_CONTEXT_LENGTH`, the source awaits `self._cleanup_state()` —
the infinite background loop — before merging; otherwise it merges at once
and returns `True`.  The result carries the new agent state, the
conversation history (which `_cleanup_state` mutates), and the returned
status; `none` means the call has not completed within `fuel` loop
iterations. -/
def update_state (fuel : Nat) (state : List (String × String))
    (hist : List ConversationTurn) (new_state : List (String × String)) :
    Option (List (String × String) × List ConversationTurn × Bool) :=
  if MAX_CONTEXT_LENGTH < pyStrLenDict new_state then
    match cleanup_state_loop fuel hist with
    | none => none
    | some h' => some (dict_update state new_state, h', true)
  else some (dict_update state new_state, hist, true)

theorem pyStrLenDict_singleton (k v : String) :
    pyStrLenDict [(k, v)] = k.length + v.length + 8 := by
  simp only [pyStrLenDict, List.map_cons, List.map_nil, List.sum_cons,
    List.sum_nil, List.length_cons, List.length_nil]
  omega

theorem pyStrLenDict_pair (k1 v1 k2 v2 : String) :
    pyStrLenDict [(k1, v1), (k2, v2)]
      = k1.length + v1.length + k2.length + v2.length + 16 := by
  simp only [pyStrLenDict, List.map_cons, List.map_nil, List.sum_cons,
    List.sum_nil, List.length_cons, List.length_nil]
  omega

/-- An update whose serialized size (5009) exceeds the 4096 threshold. -/
def c6_big_state : List (String × String) :=
  [("k", String.mk (List.replicate 5000 'a'))]

/-- An existing agent state of serialized size 4009. -/
def c6_state_a : List (String × String) :=
  [("a", String.mk (List.replicate 4000 'x'))]

/-- An update of serialized size 4009, under the threshold. -/
def c6_new_b : List (String × String) :=
  [("b", String.mk (List.replicate 4000 'y'))]

/-- C6 (code behaviour at the claim's scenario): an oversized state update
never completes — for any number of background-loop iterations the call is
still awaiting the infinite `_cleanup_state` loop, so the write neither
succeeds nor trims the state — and an in-limit update merges without any
trimming, leaving an agent state whose serialized size (8018) exceeds the
threshold, so the state is not bounded by it. -/
theorem c6_update_state_overflow_behavior :
    (∀ (fuel : Nat) (state : List (String × String)) (hist : List ConversationTurn),
        update_state fuel state hist c6_big_state = none)
    ∧ (∀ (fuel : Nat) (hist : List ConversationTurn),
        update_state fuel c6_state_a hist c6_new_b
          = some (c6_state_a ++ c6_new_b, hist, true))
    ∧ MAX_CONTEXT_LENGTH < pyStrLenDict (c6_state_a ++ c6_new_b) := by
  have hk : ("k" : String).length = 1 := rfl
  have ha : ("a" : String).length = 1 := rfl
  have hb : ("b" : String).length = 1 := rfl
  refine ⟨?_, ?_, ?_⟩
  · intro fuel state hist
    have hbig : MAX_CONTEXT_LENGTH < pyStrLenDict c6_big_state := by
      unfold c6_big_state
      rw [pyStrLenDict_singleton, hk, String.length_mk, List.length_replicate]
      decide
    unfold update_state
    rw [if_pos hbig, cleanup_state_loop_none]
  · intro fuel hist
    have hsmall : ¬ MAX_CONTEXT_LENGTH < pyStrLenDict c6_new_b := by
      unfold c6_new_b
      rw [pyStrLenDict_singleton, hb, String.length_mk, List.length_replicate]
      decide
    unfold update_state
    rw [if_neg hsmall]
    rfl
  · have happ : c6_state_a ++ c6_new_b
        = [("a", String.mk (List.replicate 4000 'x')),
           ("b", String.mk (List.replicate 4000 'y'))] := rfl
    rw [happ, pyStrLenDict_pair, ha, hb, String.length_mk, String.length_mk,
      List.length_replicate, List.length_replicate]
    decide

/-- Python whitespace as removed by `str.strip()`. -/
def isPySpace (c : Char) : Bool :=
  c == ' ' || c == '\t' || c == '\n' || c == '\r' || c == '\x0b' || c == '\x0c'

/-- Python `str.strip()`: remove leading and trailing whitespace. -/
def pyStrip (s : String) : String :=
  String.mk (((s.data.dropWhile isPySpace).reverse.dropWhile isPySpace).reverse)

/-- The `prompt` validator of the `LLMRequest` pydantic model in `llm.py`:
reject a prompt that is empty or empty after stripping, otherwise return the
stripped prompt. -/
def validate_prompt (v : String) : Except PyErr String :=
  if pyStrip v = "" then .error (.valueError "Prompt cannot be empty")
  else .ok (pyStrip v)

/-- The `temperature` validator: a supplied temperature must lie in the
closed interval from 0 to 1. -/
def validate_temperature (v : Option Rat) : Except PyErr (Option Rat) :=
  match v with
  | none => .ok none
  | some t =>
    if 0 ≤ t ∧ t ≤ 1 then .ok (some t)
    else .error (.valueError "Temperature must be between 0 and 1")

/-- The `max_tokens` validator: a supplied token budget must be positive. -/
def validate_max_tokens (v : Option Int) : Except PyErr (Option Int) :=
  match v with
  | none => .ok none
  | some m =>
    if m < 1 then .error (.valueError "Max tokens must be positive")
    else .ok (some m)

/-- A validated `LLMRequest`. -/
structure LLMRequest where
  prompt : String
  temperature : Option Rat
  max_tokens : Option Int
deriving Repr, DecidableEq

/-- Constructing `LLMRequest(prompt=..., temperature=..., max_tokens=...)`:
pydantic runs the field validators in declaration order and raises, for the
first failing validator, a validation error (a `ValueError` subclass whose
text carries the validator's message, here modelled by that message). -/
def mkLLMRequest (prompt : String) (temperature : Option Rat)
    (max_tokens : Option Int) : Except PyErr LLMRequest :=
  match validate_prompt prompt with
  | .error e => .error e
  | .ok p =>
    match validate_temperature temperature with
    | .error e => .error e
    | .ok t =>
      match validate_max_tokens max_tokens with
      | .error e => .error e
      | .ok m => .ok ⟨p, t, m⟩

/-- One attempt of `LanguageModel.generate_text` (the function body tenacity
re-runs): validate the request — a validation failure is re-raised unchanged
by the `except ValueError` arm — then invoke the provider, whose own failure
is wrapped in a `RuntimeError`.  The boolean records whether the provider
was invoked during this attempt. -/
def generate_text_attempt (prompt : String) (temperature : Option Rat)
    (max_tokens : Option Int) (providerResult : Except PyErr String) :
    Except PyErr String × Bool :=
  match mkLLMRequest prompt temperature max_tokens with
  | .error e => (.error e, false)
  | .ok _ =>
    match providerResult with
    | .ok completion => (.ok completion, true)
    | .error e => (.error (.runtimeError ("Text generation failed: " ++ e.str)), true)

/-- `tenacity.retry` with `stop_after_attempt` and the default behaviour of
retrying on every exception: run up to the given number of attempts,
returning the first success, and after the final failed attempt raise a
`RetryError` wrapping it.  Returns the result together with the number of
attempts executed and the number of attempts in which the underlying
provider was invoked. -/
def retry_stop_after (attempt : Nat → Except PyErr α × Bool) :
    Nat → Nat → Except PyErr α × Nat × Nat
  | _, 0 => (.error (.runtimeError "stop_after_attempt requires an attempt"), 0, 0)
  | k, 1 =>
    let r := attempt k
    (match r.1 with
     | .ok a => .ok a
     | .error e => .error (.retryError e), 1, cond r.2 1 0)
  | k, n + 2 =>
    let r := attempt k
    match r.1 with
    | .ok a => (.ok a, 1, cond r.2 1 0)
    | .error _ =>
      let rest := retry_stop_after attempt (k + 1) (n + 1)
      (rest.1, rest.2.1 + 1, rest.2.2 + cond r.2 1 0)

/-- `LanguageModel.generate_text` as decorated:
`retry(stop=stop_after_attempt(3))` around the attempt body.  `provider`
gives the outcome `OpenAIService.create_completion` would have on each
attempt.  Every attempt re-runs the validation, so the attempt count is the
number of validations performed. -/
def generate_text (prompt : String) (temperature : Option Rat)
    (max_tokens : Option Int) (provider : Nat → Except PyErr String) :
    Except PyErr String × Nat × Nat :=
  retry_stop_after
    (fun k => generate_text_attempt prompt temperature max_tokens (provider k)) 0 3

/-- One attempt of `EmbeddingService.generate_embedding`: reject empty
input, invoke the provider, check the returned dimension; every failure,
including the validation failure, is caught by the `except` arm and
re-raised as a `RuntimeError`.  The boolean records whether the provider was
invoked. -/
def generate_embedding_attempt (text : String) (dimension : Nat)
    (providerResult : Except PyErr (List Rat)) :
    Except PyErr (List Rat) × Bool :=
  if text = "" then
    (.error (.runtimeError
      "Failed to generate embedding: Input text must be a non-empty string"), false)
  else
    match providerResult with
    | .error e =>
      (.error (.runtimeError ("Failed to generate embedding: " ++ e.str)), true)
    | .ok emb =>
      if emb.length ≠ dimension then
        (.error (.runtimeError ("Failed to generate embedding: Generated embedding dimension "
          ++ toString emb.length ++ " does not match expected dimension "
          ++ toString dimension)), true)
      else (.ok emb, true)

/-- `tenacity.retry` with a wait policy but no stop condition, as on
`generate_embedding` (and on the `PineconeService` methods): it returns only
when an attempt succeeds and otherwise retries without bound.  The fuel is
the number of attempts the interpreter runs; `none` means the call has not
returned within that many attempts. -/
def retry_no_stop (attempt : Nat → Except PyErr α × Bool) :
    Nat → Nat → Option α
  | _, 0 => none
  | k, fuel + 1 =>
    match (attempt k).1 with
    | .ok a => some a
    | .error _ => retry_no_stop attempt (k + 1) fuel

/-- `EmbeddingService.generate_embedding` as decorated: unbounded retry
around the attempt body. -/
def generate_embedding (text : String) (dimension : Nat)
    (provider : Nat → Except PyErr (List Rat)) (fuel : Nat) :
    Option (List Rat) :=
  retry_no_stop
    (fun k => generate_embedding_attempt text dimension (provider k)) 0 fuel

theorem generate_embedding_empty_never_returns
    (dimension : Nat) (provider : Nat → Except PyErr (List Rat)) :
    ∀ (fuel k : Nat),
      retry_no_stop
        (fun j => generate_embedding_attempt "" dimension (provider j)) k fuel
        = none := by
  intro fuel
  induction fuel with
  | zero => intro k; rfl
  | succ n ih => intro k; exact ih (k + 1)

/-- C2 (code behaviour at the claim's scenarios): an invalid argument —
empty prompt, out-of-range temperature, or non-positive `max_tokens` — does
fail without a single provider invocation, but the validation failure is
retried rather than failing fast: `generate_text` runs the validation three
times and surfaces a `RetryError` wrapping the `ValueError`, and
`generate_embedding` on empty text retries without bound, never returning,
with the provider never invoked on any attempt. -/
theorem c2_validation_failure_retried :
    (∀ provider : Nat → Except PyErr String,
        generate_text "" none none provider
          = (.error (.retryError (.valueError "Prompt cannot be empty")), 3, 0))
    ∧ (∀ provider : Nat → Except PyErr String,
        generate_text "p" (some 2) none provider
          = (.error (.retryError (.valueError "Temperature must be between 0 and 1")), 3, 0))
    ∧ (∀ provider : Nat → Except PyErr String,
        generate_text "p" none (some 0) provider
          = (.error (.retryError (.valueError "Max tokens must be positive")), 3, 0))
    ∧ (∀ (dimension : Nat) (provider : Nat → Except PyErr (List Rat)) (fuel : Nat),
        generate_embedding "" dimension provider fuel = none)
    ∧ (∀ (dimension : Nat) (r : Except PyErr (List Rat)),
        (generate_embedding_attempt "" dimension r).2 = false) := by
  refine ⟨fun provider => rfl, fun provider => rfl, fun provider => rfl, ?_, fun d r => rfl⟩
  intro dimension provider fuel
  exact generate_embedding_empty_never_returns dimension provider fuel 0

/-- `BATCH_SIZE` from `embeddings.py`. -/
def BATCH_SIZE : Nat := 100

/-- The batch slicing performed by `range(0, len(text_data), BATCH_SIZE)`
with `text_data[i:i + BATCH_SIZE]`: successive chunks of at most `bs`
elements.  The fuel is an upper bound on the number of chunks, instantiated
with the list length. -/
def chunksGo (bs : Nat) : Nat → List α → List (List α)
  | 0, _ => []
  | _, [] => []
  | fuel + 1, l => l.take bs :: chunksGo bs fuel (l.drop bs)

/-- All batch slices of a list. -/
def chunksOf (bs : Nat) (l : List α) : List (List α) :=
  chunksGo bs l.length l

/-- One `(id, text, metadata)` item passed to `store_embeddings`. -/
abbrev StoreItem := String × String × List (String × String)

/-- The inner loop of a `store_embeddings` batch: generate an embedding per
item in order, building the `(id, vector, metadata)` batch; the first
embedding failure raises out of the batch.  `embedOf` is the observed
outcome of `generate_embedding` per text. -/
def embed_batch (embedOf : String → Except PyErr (List Rat)) :
    List StoreItem → Except PyErr (List (String × List Rat × List (String × String)))
  | [] => .ok []
  | (id_, text, meta) :: rest =>
    match embedOf text with
    | .error e => .error e
    | .ok emb =>
      match embed_batch embedOf rest with
      | .error e => .error e
      | .ok l => .ok ((id_, emb, meta) :: l)

/-- The batch loop of `EmbeddingService.store_embeddings`: for each slice,
embed its items and call `PineconeService.upsert_vectors`; a raised
exception aborts the loop and is wrapped by the surrounding `except` into a
`RuntimeError`, while a returned status is ANDed into `success` and the loop
continues.  `upsert` gives the observed outcome of the adapter call for each
batch index; the returned list holds the sizes of the batches for which the
adapter was invoked, in order. -/
def store_batches (embedOf : String → Except PyErr (List Rat))
    (upsert : Nat → Except PyErr Bool) :
    List (List StoreItem) → Nat → Bool → Except PyErr Bool × List Nat
  | [], _, success => (.ok success, [])
  | batch :: rest, i, success =>
    match embed_batch embedOf batch with
    | .error e => (.error (.runtimeError ("Failed to store embeddings: " ++ e.str)), [])
    | .ok _ =>
      match upsert i with
      | .error e =>
        (.error (.runtimeError ("Failed to store embeddings: " ++ e.str)), [batch.length])
      | .ok b =>
        let rest' := store_batches embedOf upsert rest (i + 1) (success && b)
        (rest'.1, batch.length :: rest'.2)

/-- `EmbeddingService.store_embeddings`: reject an empty item list (the
`ValueError` is wrapped into a `RuntimeError` by the `except` arm), then
process the slices sequentially starting from `success = True`. -/
def store_embeddings (text_data : List StoreItem)
    (embedOf : String → Except PyErr (List Rat))
    (upsert : Nat → Except PyErr Bool) : Except PyErr Bool × List Nat :=
  if text_data.isEmpty then
    (.error (.runtimeError
      "Failed to store embeddings: No text data provided for embedding storage"), [])
  else store_batches embedOf upsert (chunksOf BATCH_SIZE text_data) 0 true

/-- 250 items, as in the claim's scenario. -/
def c4_items : List StoreItem :=
  (List.range 250).map (fun i => (toString i, "t", []))

/-- An embedding oracle that always succeeds. -/
def c4_embed_ok : String → Except PyErr (List Rat) := fun _ => .ok [1]

/-- An adapter that succeeds on every batch. -/
def c4_upsert_ok : Nat → Except PyErr Bool := fun _ => .ok true

/-- An adapter whose second batch (index 1) reports failure by returning
`False`, as the repository's own unit test mocks a failing upsert. -/
def c4_upsert_false2 : Nat → Except PyErr Bool :=
  fun i => if i = 1 then .ok false else .ok true

/-- An adapter whose second batch raises. -/
def c4_upsert_raise2 : Nat → Except PyErr Bool :=
  fun i => if i = 1 then .error (.runtimeError "Storage Error") else .ok true

/-- C4 counterexample: upserting 250 items when the second batch's adapter
call fails by returning an unsuccessful status (the failure mode the
repository's unit test exercises) makes the operation report overall
failure, but the third batch of 50 IS still sent to the adapter — three
adapter invocations, sizes 100, 100 and 50, occur — contradicting the
claim that the third batch is never sent after a second-batch failure. -/
theorem c4_second_batch_failure_third_batch_sent :
    store_embeddings c4_items c4_embed_ok c4_upsert_false2
        = (.ok false, [100, 100, 50])
      ∧ (store_embeddings c4_items c4_embed_ok c4_upsert_false2).2.length = 3 :=
  ⟨rfl, rfl⟩

/-- C4 amended: with 250 items and batch size 100 the slices have sizes
100, 100 and 50; when every adapter call succeeds exactly those three calls
are made and the operation succeeds; when the second batch's adapter call
raises, the operation reports failure and the third batch is never sent;
when the second batch's adapter call instead returns an unsuccessful
status, the loop continues — the third batch is sent and the overall result
is the conjunction of the per-batch statuses, i.e. failure. -/
theorem c4_upsert_batching_amended :
    (chunksOf BATCH_SIZE c4_items).map List.length = [100, 100, 50]
    ∧ store_embeddings c4_items c4_embed_ok c4_upsert_ok = (.ok true, [100, 100, 50])
    ∧ store_embeddings c4_items c4_embed_ok c4_upsert_raise2
        = (.error (.runtimeError "Failed to store embeddings: Storage Error"), [100, 100])
    ∧ store_embeddings c4_items c4_embed_ok c4_upsert_false2
        = (.ok false, [100, 100, 50]) :=
  ⟨rfl, rfl, rfl, rfl⟩

/-- Python `str()` of a list of already-rendered elements, used by the
pipeline only to build string payloads whose serialized size is checked. -/
def pyStrOfList (xs : List String) : String :=
  "[" ++ String.intercalate ", " xs ++ "]"

/-- Rendering of a role/content pair list for the same purpose. -/
def pyStrOfPairs (ps : List (String × String)) : String :=
  pyStrOfList (ps.map (fun p => p.1 ++ ": " ++ p.2))

/-- The mutable state of one `Agent` instance touched by `process_request`:
`_state`, `_conversation_history`, `_skill_registry` and the circuit
breaker. -/
structure AgentSt where
  state : List (String × String)
  history : List ConversationTurn
  registry : SkillRegistry
  breaker : CircuitBreaker
deriving Repr, DecidableEq

/-- The observed outcomes of one attempt's external effects inside
`process_request`: the request embedding call, the embedding and search
calls made inside `get_conversation_context`, the per-selected-skill
execution outcomes, the wall-clock values, and the fuel granted to a
`_cleanup_state` await inside `update_state`. -/
structure ProcessOracles where
  embed : Except PyErr (List Rat)
  ctxEmbed : Except PyErr (List Rat)
  search : Except PyErr (List RetrievalMatch)
  skillOutcomes : List (Except PyErr String)
  nowIso : String
  now : Int
  monoNow : Nat
  cleanupFuel : Nat

/-- The skill loop of `process_request`: execute each selected skill through
`execute_skill`, appending successful results and skipping (logging only)
individual failures.  The per-call outcomes are consumed positionally. -/
def run_skill_loop (reg : SkillRegistry) (breaker : CircuitBreaker) (now : Nat)
    (inputs : List (String × String)) :
    List Skill → List (Except PyErr String) → List String
  | [], _ => []
  | skill :: rest, outcomes =>
    let o := outcomes.headD (.error (.runtimeError "no outcome"))
    match (execute_skill reg breaker now skill.name inputs o).1 with
    | .ok r => r :: run_skill_loop reg breaker now inputs rest outcomes.tail
    | .error _ => run_skill_loop reg breaker now inputs rest outcomes.tail

/-- One attempt of `Agent.process_request` (the body tenacity re-runs):
validate the request text, validate a supplied security context, append the
turn to the conversation history, embed the request, build the retrieval
context (best-effort), select skills via `_select_skills` — whose
`self._skill_registry.list_skills()` call raises `AttributeError` (no such
method exists) that its own `except` swallows, returning no skills — run
the skill loop, merge the results into the agent state, and return the
results with the executed-skill count.  Any exception is caught by the outer
`except` and re-raised as a summarizing `RuntimeError`; `none` means the
attempt is hung awaiting the infinite `_cleanup_state` loop inside
`update_state`. -/
def process_request_attempt (st : AgentSt) (request : String)
    (context : List (String × String)) (security_context : Option SecurityContext)
    (o : ProcessOracles) : Option (Except PyErr (List String × Nat) × AgentSt) :=
  if request = "" then
    some (.error (.runtimeError "Failed to process request: Invalid request format"), st)
  else
    match security_context.map (fun c => validate_security_context c o.now) with
    | some (.error e) =>
      some (.error (.runtimeError ("Failed to process request: " ++ e.str)), st)
    | _ =>
      let hist1 := update_conversation_history st.history
        ⟨"user", request, o.nowIso, context⟩
      let st1 : AgentSt := { st with history := hist1 }
      match o.embed with
      | .error e =>
        some (.error (.runtimeError ("Failed to process request: " ++ e.str)), st1)
      | .ok _ =>
        let conversation_context := get_conversation_context
          (security_context.map (fun c => validate_security_context c o.now))
          o.ctxEmbed o.search
        -- `_select_skills` calls `self._skill_registry.list_skills()`, a
        -- method SkillRegistry does not define; the AttributeError is caught
        -- inside `_select_skills`, which then returns the empty list.
        let relevant_skills : List Skill := []
        let inputs := [("request", request),
                       ("context", pyStrOfPairs conversation_context)]
        let results := run_skill_loop st1.registry st1.breaker o.monoNow inputs
          relevant_skills o.skillOutcomes
        match update_state o.cleanupFuel st1.state hist1
            [("last_request", request), ("last_results", pyStrOfList results),
             ("timestamp", o.nowIso)] with
        | none => none
        | some (state2, hist2, _ok) =>
          some (.ok (results, results.length),
            { st1 with state := state2, history := hist2 })

/-- `Agent.process_request` as decorated:
`retry(stop=stop_after_attempt(3))` around the attempt, threading the agent
state mutated by earlier attempts into later ones and raising a
`RetryError` wrapping the third consecutive failure. -/
def process_request (st : AgentSt) (request : String)
    (context : List (String × String)) (security_context : Option SecurityContext)
    (oracles : Nat → ProcessOracles) :
    Option (Except PyErr (List String × Nat) × AgentSt) :=
  match process_request_attempt st request context security_context (oracles 0) with
  | none => none
  | some (.ok r, st1) => some (.ok r, st1)
  | some (.error _, st1) =>
    match process_request_attempt st1 request context security_context (oracles 1) with
    | none => none
    | some (.ok r, st2) => some (.ok r, st2)
    | some (.error _, st2) =>
      match process_request_attempt st2 request context security_context (oracles 2) with
      | none => none
      | some (.ok r, st3) => some (.ok r, st3)
      | some (.error e, st3) => some (.error (.retryError e), st3)

/-- C5 (code behaviour at the claim's scenario): a call with an empty
request string leaves the whole agent state — in particular the
conversation history — unchanged, but the surfaced failure is not the
`ValueError` the claim's `InvalidArgument` denotes (and the repository's
own integration test expects): each attempt wraps it into a summarizing
`RuntimeError` and the retry wrapper raises a `RetryError` around the third
one. -/
theorem c5_empty_request_error_kind :
    ∀ (st : AgentSt) (context : List (String × String))
      (sec : Option SecurityContext) (oracles : Nat → ProcessOracles),
      process_request st "" context sec oracles
          = some (.error (.retryError
              (.runtimeError "Failed to process request: Invalid request format")), st)
        ∧ (PyErr.retryError
            (.runtimeError "Failed to process request: Invalid request format")).isValueError
            = false :=
  fun _ _ _ _ => ⟨rfl, rfl⟩
